import Mathlib

/-!
Verification of the subscription-billing models of
django-flexible-subscriptions (src/subscriptions/models.py).

Embedding conventions:
* A datetime is an exact rational number of seconds since an arbitrary
  epoch; a timedelta is an exact rational number of seconds.  The
  decimal day counts written in the source (30.4368 and 365.2425) are
  embedded as the exact rationals they denote.
* Nullable fields (Django null=True / Python None) are Option values.
* A Python expression that raises (subtracting None from a datetime)
  is embedded as an Option-valued function returning none, and the
  exception propagating out of a loop makes the whole loop none.
-/

/-- Recurrence-unit constant ONCE = the character 0. -/
def ONCE : String := "0"

/-- Recurrence-unit constant SECOND = the character 1. -/
def SECOND : String := "1"

/-- Recurrence-unit constant MINUTE = the character 2. -/
def MINUTE : String := "2"

/-- Recurrence-unit constant HOUR = the character 3. -/
def HOUR : String := "3"

/-- Recurrence-unit constant DAY = the character 4. -/
def DAY : String := "4"

/-- Recurrence-unit constant WEEK = the character 5. -/
def WEEK : String := "5"

/-- Recurrence-unit constant MONTH = the character 6. -/
def MONTH : String := "6"

/-- Recurrence-unit constant YEAR = the character 7. -/
def YEAR : String := "7"

/-- Python timedelta(seconds=s), as seconds. -/
def timedelta_seconds (s : ℚ) : ℚ := s

/-- Python timedelta(minutes=m), as seconds. -/
def timedelta_minutes (m : ℚ) : ℚ := 60 * m

/-- Python timedelta(hours=h), as seconds. -/
def timedelta_hours (h : ℚ) : ℚ := 3600 * h

/-- Python timedelta(days=d), as seconds. -/
def timedelta_days (d : ℚ) : ℚ := 86400 * d

/-- Python timedelta(weeks=w), as seconds. -/
def timedelta_weeks (w : ℚ) : ℚ := 604800 * w

/-- PaymentRetry model: iteration number and the day offset after which
a failed payment is retried. -/
structure PaymentRetry where
  iteration : ℕ
  retry_offset : ℕ
  deriving Repr, DecidableEq

/-- PlanCost model: cost and billing frequency of a plan.  The id and
the plan / currency foreign keys are opaque numbers here; cost is a
nullable decimal. -/
structure PlanCost where
  id : ℕ
  plan : ℕ
  recurrence_period : ℕ
  recurrence_unit : String
  currency : Option ℕ
  cost : Option ℚ
  active : Bool
  deriving Repr, DecidableEq

/-- PlanCost.next_billing_datetime: branches on recurrence_unit and adds
the corresponding timedelta to the given datetime; any other unit
(including ONCE) yields None. -/
def PlanCost.next_billing_datetime (self : PlanCost) (current : ℚ) :
    Option ℚ :=
  if self.recurrence_unit = SECOND then
    some (current + timedelta_seconds self.recurrence_period)
  else if self.recurrence_unit = MINUTE then
    some (current + timedelta_minutes self.recurrence_period)
  else if self.recurrence_unit = HOUR then
    some (current + timedelta_hours self.recurrence_period)
  else if self.recurrence_unit = DAY then
    some (current + timedelta_days self.recurrence_period)
  else if self.recurrence_unit = WEEK then
    some (current + timedelta_weeks self.recurrence_period)
  else if self.recurrence_unit = MONTH then
    some (current + timedelta_days ((304368 / 10000 : ℚ) * self.recurrence_period))
  else if self.recurrence_unit = YEAR then
    some (current + timedelta_days ((3652425 / 10000 : ℚ) * self.recurrence_period))
  else
    none

/-- UserSubscription model: billing window dates, flags, renewal status
and the nullable retry-policy foreign key.  The user / subscription
foreign keys are opaque numbers. -/
structure UserSubscription where
  id : ℕ
  user : Option ℕ
  subscription : Option ℕ
  date_billing_start : Option ℚ
  date_billing_end : Option ℚ
  date_billing_last : Option ℚ
  date_billing_next : Option ℚ
  active : Bool
  cancelled : Bool
  renewal_status : String
  retry : Option PaymentRetry
  deriving Repr, DecidableEq

/-- Renewal-status constant RUNNING. -/
def UserSubscription.RUNNING : String := "R"

/-- Renewal-status constant RETRYING. -/
def UserSubscription.RETRYING : String := "T"

/-- Renewal-status constant FAILED. -/
def UserSubscription.FAILED : String := "F"

/-- UserSubscription.transaction_ago: whole-day difference (Python
timedelta.days, i.e. floor) between now and date_billing_last.  When
date_billing_last is null the Python subtraction raises, embedded as
none. -/
def UserSubscription.transaction_ago (self : UserSubscription)
    (now : ℚ) : Option ℤ :=
  match self.date_billing_last with
  | none => none
  | some last => some ⌊(now - last) / 86400⌋

/-- UserSubscription.for_retry: false when no retry policy is attached,
otherwise transaction_ago >= retry_offset; none when transaction_ago
raises. -/
def UserSubscription.for_retry (self : UserSubscription) (now : ℚ) :
    Option Bool :=
  match self.retry with
  | none => some false
  | some r =>
      (self.transaction_ago now).map
        (fun d => decide ((r.retry_offset : ℤ) ≤ d))

/-- Loop body of UserSubscriptionManager.failed_renewals: walks the
filtered queryset appending ids of subscriptions that are for_retry; an
exception in for_retry aborts the whole computation. -/
def failedRenewalsLoop (now : ℚ) :
    List UserSubscription → Option (List ℕ)
  | [] => some []
  | s :: rest => do
      let b ← s.for_retry now
      let tail ← failedRenewalsLoop now rest
      pure (if b then s.id :: tail else tail)

/-- UserSubscriptionManager.failed_renewals over a table of
UserSubscription rows: filters active, non-cancelled rows with
renewal_status RETRYING, then collects the ids of those for_retry. -/
def UserSubscriptionManager.failed_renewals
    (table : List UserSubscription) (now : ℚ) : Option (List ℕ) :=
  failedRenewalsLoop now
    (table.filter (fun s =>
      s.active && !s.cancelled
        && s.renewal_status = UserSubscription.RETRYING))

/-- Concrete PlanCost used to instantiate theorems: five-unit recurrence
with an arbitrary id, plan and cost. -/
def basePlanCost : PlanCost :=
  { id := 11, plan := 4, recurrence_period := 5, recurrence_unit := MONTH,
    currency := some 1, cost := some 100, active := true }

/-- C1: for every PlanCost whose recurrence_unit is second, minute, hour,
day, week, month or year and every datetime t, next_billing_datetime t
succeeds and the result minus t is the unit delta scaled by
recurrence_period: recurrence_period seconds, minutes, hours, days or
weeks, and the approximated 30.4368-day month and 365.2425-day year
deltas. -/
theorem next_billing_datetime_unit_delta (pc : PlanCost) (t : ℚ) :
    (pc.recurrence_unit = SECOND → ∃ s, pc.next_billing_datetime t = some s ∧
      s - t = timedelta_seconds pc.recurrence_period)
  ∧ (pc.recurrence_unit = MINUTE → ∃ s, pc.next_billing_datetime t = some s ∧
      s - t = timedelta_minutes pc.recurrence_period)
  ∧ (pc.recurrence_unit = HOUR → ∃ s, pc.next_billing_datetime t = some s ∧
      s - t = timedelta_hours pc.recurrence_period)
  ∧ (pc.recurrence_unit = DAY → ∃ s, pc.next_billing_datetime t = some s ∧
      s - t = timedelta_days pc.recurrence_period)
  ∧ (pc.recurrence_unit = WEEK → ∃ s, pc.next_billing_datetime t = some s ∧
      s - t = timedelta_weeks pc.recurrence_period)
  ∧ (pc.recurrence_unit = MONTH → ∃ s, pc.next_billing_datetime t = some s ∧
      s - t = timedelta_days ((304368 / 10000 : ℚ) * pc.recurrence_period))
  ∧ (pc.recurrence_unit = YEAR → ∃ s, pc.next_billing_datetime t = some s ∧
      s - t = timedelta_days ((3652425 / 10000 : ℚ) * pc.recurrence_period)) := by
  refine ⟨fun h => ⟨t + timedelta_seconds pc.recurrence_period, ?_, by ring⟩,
    fun h => ⟨t + timedelta_minutes pc.recurrence_period, ?_, by ring⟩,
    fun h => ⟨t + timedelta_hours pc.recurrence_period, ?_, by ring⟩,
    fun h => ⟨t + timedelta_days pc.recurrence_period, ?_, by ring⟩,
    fun h => ⟨t + timedelta_weeks pc.recurrence_period, ?_, by ring⟩,
    fun h => ⟨t + timedelta_days ((304368 / 10000 : ℚ) * pc.recurrence_period),
      ?_, by ring⟩,
    fun h => ⟨t + timedelta_days ((3652425 / 10000 : ℚ) * pc.recurrence_period),
      ?_, by ring⟩⟩ <;>
  simp [PlanCost.next_billing_datetime, h, SECOND, MINUTE, HOUR, DAY,
    WEEK, MONTH, YEAR]

/-- Witness for C1: the seven conjuncts instantiated at period 5 and
datetime 0, one concrete PlanCost per unit. -/
theorem next_billing_datetime_unit_delta_witness :
    (∃ s, ({ basePlanCost with recurrence_unit := SECOND
      } : PlanCost).next_billing_datetime 0 = some s ∧
      s - 0 = timedelta_seconds ((5 : ℕ) : ℚ))
  ∧ (∃ s, ({ basePlanCost with recurrence_unit := MINUTE
      } : PlanCost).next_billing_datetime 0 = some s ∧
      s - 0 = timedelta_minutes ((5 : ℕ) : ℚ))
  ∧ (∃ s, ({ basePlanCost with recurrence_unit := HOUR
      } : PlanCost).next_billing_datetime 0 = some s ∧
      s - 0 = timedelta_hours ((5 : ℕ) : ℚ))
  ∧ (∃ s, ({ basePlanCost with recurrence_unit := DAY
      } : PlanCost).next_billing_datetime 0 = some s ∧
      s - 0 = timedelta_days ((5 : ℕ) : ℚ))
  ∧ (∃ s, ({ basePlanCost with recurrence_unit := WEEK
      } : PlanCost).next_billing_datetime 0 = some s ∧
      s - 0 = timedelta_weeks ((5 : ℕ) : ℚ))
  ∧ (∃ s, ({ basePlanCost with recurrence_unit := MONTH
      } : PlanCost).next_billing_datetime 0 = some s ∧
      s - 0 = timedelta_days ((304368 / 10000 : ℚ) * ((5 : ℕ) : ℚ)))
  ∧ (∃ s, ({ basePlanCost with recurrence_unit := YEAR
      } : PlanCost).next_billing_datetime 0 = some s ∧
      s - 0 = timedelta_days ((3652425 / 10000 : ℚ) * ((5 : ℕ) : ℚ))) :=
  ⟨(next_billing_datetime_unit_delta _ 0).1 rfl,
    (next_billing_datetime_unit_delta _ 0).2.1 rfl,
    (next_billing_datetime_unit_delta _ 0).2.2.1 rfl,
    (next_billing_datetime_unit_delta _ 0).2.2.2.1 rfl,
    (next_billing_datetime_unit_delta _ 0).2.2.2.2.1 rfl,
    (next_billing_datetime_unit_delta _ 0).2.2.2.2.2.1 rfl,
    (next_billing_datetime_unit_delta _ 0).2.2.2.2.2.2 rfl⟩

/-- C2: for every UserSubscription, for_retry returns true exactly when a
retry policy is attached and the whole-day difference transaction_ago is
defined and at least that policy's retry_offset. -/
theorem for_retry_iff_policy_and_elapsed (sub : UserSubscription) (now : ℚ) :
    sub.for_retry now = some true ↔
      ∃ r, sub.retry = some r ∧
        ∃ d, sub.transaction_ago now = some d ∧ (r.retry_offset : ℤ) ≤ d := by
  cases hr : sub.retry with
  | none => simp [UserSubscription.for_retry, hr]
  | some r =>
      cases hd : sub.transaction_ago now with
      | none => simp [UserSubscription.for_retry, hr, hd]
      | some d => simp [UserSubscription.for_retry, hr, hd]

/-- Concrete UserSubscription with no retry policy attached but ten whole
days elapsed since its last billing at datetime 864000. -/
def noPolicySub : UserSubscription :=
  { id := 3, user := some 1, subscription := some 11,
    date_billing_start := some 0, date_billing_end := none,
    date_billing_last := some 0, date_billing_next := some 864000,
    active := true, cancelled := false,
    renewal_status := UserSubscription.RETRYING,
    retry := none }

/-- Concrete UserSubscription like noPolicySub but with a retry policy of
offset 3 attached. -/
def retryingSub : UserSubscription :=
  { noPolicySub with
    id := 7,
    retry := some { iteration := 1, retry_offset := 3 } }

/-- C3 counterexample: the biconditional (for_retry iff elapsed days are
at least the offset, with no retry-attachment condition) fails at
noPolicySub with a zero offset and ten elapsed days: the right side
holds but for_retry is false because no policy is attached. -/
theorem for_retry_spec_biconditional_fails :
    ¬ ((noPolicySub.for_retry 864000 = some true) ↔
      ∃ d, noPolicySub.transaction_ago 864000 = some d ∧ (0 : ℤ) ≤ d) := by
  norm_num [UserSubscription.for_retry, UserSubscription.transaction_ago,
    noPolicySub]

/-- C3 amended: whenever transaction_ago is defined and equals d,
for_retry is true exactly when some retry policy is attached whose
retry_offset is at most d. -/
theorem for_retry_needs_attached_policy (sub : UserSubscription) (now : ℚ)
    (d : ℤ) (h : sub.transaction_ago now = some d) :
    sub.for_retry now = some true ↔
      ∃ r, sub.retry = some r ∧ (r.retry_offset : ℤ) ≤ d := by
  cases hr : sub.retry with
  | none => simp [UserSubscription.for_retry, hr]
  | some r => simp [UserSubscription.for_retry, hr, h]

/-- Witness for the amended C3 at retryingSub ten days after its last
billing. -/
theorem for_retry_needs_attached_policy_witness :
    (retryingSub.transaction_ago 864000 = some 10) ∧
    (retryingSub.for_retry 864000 = some true ↔
      ∃ r, retryingSub.retry = some r ∧ (r.retry_offset : ℤ) ≤ 10) :=
  ⟨by norm_num [UserSubscription.transaction_ago, retryingSub, noPolicySub],
   for_retry_needs_attached_policy retryingSub 864000 10
     (by norm_num [UserSubscription.transaction_ago, retryingSub,
       noPolicySub])⟩

/-- C4: with recurrence_unit month, next_billing_datetime t is exactly
t plus 30.4368 * recurrence_period days, and with recurrence_unit year
exactly t plus 365.2425 * recurrence_period days, in exact rational
arithmetic. -/
theorem next_billing_datetime_month_year_exact (pc : PlanCost) (t : ℚ) :
    (pc.recurrence_unit = MONTH →
      pc.next_billing_datetime t =
        some (t + timedelta_days ((304368 / 10000 : ℚ) * pc.recurrence_period)))
  ∧ (pc.recurrence_unit = YEAR →
      pc.next_billing_datetime t =
        some (t + timedelta_days ((3652425 / 10000 : ℚ) * pc.recurrence_period))) := by
  constructor <;> intro h <;>
  simp [PlanCost.next_billing_datetime, h, SECOND, MINUTE, HOUR, DAY,
    WEEK, MONTH, YEAR]

/-- Witness for C4 at period 5 and datetime 0. -/
theorem next_billing_datetime_month_year_exact_witness :
    basePlanCost.next_billing_datetime 0 =
      some (0 + timedelta_days ((304368 / 10000 : ℚ) * ((5 : ℕ) : ℚ)))
  ∧ ({ basePlanCost with recurrence_unit := YEAR
      } : PlanCost).next_billing_datetime 0 =
      some (0 + timedelta_days ((3652425 / 10000 : ℚ) * ((5 : ℕ) : ℚ))) :=
  ⟨(next_billing_datetime_month_year_exact basePlanCost 0).1 rfl,
   (next_billing_datetime_month_year_exact _ 0).2 rfl⟩

/-- C5 counterexample: with recurrence_unit ONCE, next_billing_datetime
returns None rather than a datetime. -/
theorem next_billing_datetime_once_none :
    ({ basePlanCost with recurrence_unit := ONCE
      } : PlanCost).next_billing_datetime 0 = none := by
  simp [PlanCost.next_billing_datetime, basePlanCost, ONCE, SECOND, MINUTE,
    HOUR, DAY, WEEK, MONTH, YEAR]

/-- C5 amended: next_billing_datetime returns a datetime exactly for the
seven timed recurrence units; for ONCE (and any other value) it returns
None. -/
theorem next_billing_datetime_isSome_iff (pc : PlanCost) (t : ℚ) :
    (pc.next_billing_datetime t).isSome = true ↔
      pc.recurrence_unit ∈ [SECOND, MINUTE, HOUR, DAY, WEEK, MONTH, YEAR] := by
  unfold PlanCost.next_billing_datetime
  split_ifs with h1 h2 h3 h4 h5 h6 h7 <;> simp_all

/-- Method-call embedding of PlanCost.next_billing_datetime: the returned
value paired with the receiver as it stands after the call; the method
body only reads recurrence_unit and recurrence_period and assigns no
field. -/
def PlanCost.next_billing_datetime_call (self : PlanCost) (current : ℚ) :
    Option ℚ × PlanCost :=
  (self.next_billing_datetime current, self)

/-- Method-call embedding of UserSubscription.for_retry: the returned
value paired with the receiver as it stands after the call; the property
body only reads retry, retry_offset and date_billing_last and assigns no
field. -/
def UserSubscription.for_retry_call (self : UserSubscription) (now : ℚ) :
    Option Bool × UserSubscription :=
  (self.for_retry now, self)

/-- C6: the billing-date and retry-eligibility computations are
deterministic (equal inputs give equal results) and leave every field of
the PlanCost and UserSubscription they read unchanged. -/
theorem billing_and_retry_pure (pc1 pc2 : PlanCost) (t1 t2 : ℚ)
    (sub1 sub2 : UserSubscription) (n1 n2 : ℚ)
    (hpc : pc1 = pc2) (ht : t1 = t2) (hsub : sub1 = sub2) (hn : n1 = n2) :
    pc1.next_billing_datetime t1 = pc2.next_billing_datetime t2
  ∧ sub1.for_retry n1 = sub2.for_retry n2
  ∧ (pc1.next_billing_datetime_call t1).2 = pc1
  ∧ (sub1.for_retry_call n1).2 = sub1 := by
  subst hpc ht hsub hn
  exact ⟨rfl, rfl, rfl, rfl⟩

/-- Witness for C6 at a concrete PlanCost and UserSubscription. -/
theorem billing_and_retry_pure_witness :
    basePlanCost.next_billing_datetime 0 = basePlanCost.next_billing_datetime 0
  ∧ retryingSub.for_retry 864000 = retryingSub.for_retry 864000
  ∧ (basePlanCost.next_billing_datetime_call 0).2 = basePlanCost
  ∧ (retryingSub.for_retry_call 864000).2 = retryingSub :=
  billing_and_retry_pure basePlanCost basePlanCost 0 0 retryingSub retryingSub
    864000 864000 rfl rfl rfl rfl

/-- Concrete UserSubscription with a retry policy attached but a null
date_billing_last. -/
def nullLastSub : UserSubscription :=
  { retryingSub with date_billing_last := none }

/-- C7: for every UserSubscription with a retry policy attached but a
null date_billing_last, transaction_ago and hence for_retry fail
(raise) rather than yielding false. -/
theorem for_retry_undefined_without_last_billing (sub : UserSubscription)
    (now : ℚ) (r : PaymentRetry) (hr : sub.retry = some r)
    (hl : sub.date_billing_last = none) :
    sub.transaction_ago now = none ∧ sub.for_retry now = none := by
  have h : sub.transaction_ago now = none := by
    simp [UserSubscription.transaction_ago, hl]
  exact ⟨h, by simp [UserSubscription.for_retry, hr, h]⟩

/-- Witness for C7 at nullLastSub. -/
theorem for_retry_undefined_without_last_billing_witness :
    nullLastSub.transaction_ago 0 = none ∧ nullLastSub.for_retry 0 = none :=
  for_retry_undefined_without_last_billing nullLastSub 0
    { iteration := 1, retry_offset := 3 } rfl rfl

/-- Helper: the collection loop of failed_renewals returns exactly the
ids of the list members whose for_retry is true, whenever no member
raises. -/
theorem failedRenewalsLoop_eq (now : ℚ) (l : List UserSubscription) :
    ∀ out, failedRenewalsLoop now l = some out →
      out = (l.filter (fun s => s.for_retry now = some true)).map
        (fun s => s.id) := by
  induction l with
  | nil =>
      intro out h
      simp [failedRenewalsLoop] at h
      simp [← h]
  | cons s rest ih =>
      intro out h
      cases hb : s.for_retry now with
      | none => simp [failedRenewalsLoop, hb] at h
      | some b =>
          cases ht : failedRenewalsLoop now rest with
          | none => simp [failedRenewalsLoop, hb, ht] at h
          | some tail =>
              have htail := ih tail ht
              simp [failedRenewalsLoop, hb, ht] at h
              cases b with
              | true => simp [List.filter_cons, hb, ← h, htail]
              | false => simp [List.filter_cons, hb, ← h, htail]

/-- C8: whenever failed_renewals returns a list, that list is exactly the
ids of the table rows that are active, not cancelled, have
renewal_status RETRYING and satisfy for_retry; no other id appears. -/
theorem failed_renewals_exact (table : List UserSubscription) (now : ℚ)
    (out : List ℕ)
    (h : UserSubscriptionManager.failed_renewals table now = some out) :
    out = (table.filter (fun s =>
      s.active && !s.cancelled
        && s.renewal_status = UserSubscription.RETRYING
        && s.for_retry now = some true)).map (fun s => s.id) := by
  have h2 := failedRenewalsLoop_eq now _ out h
  rw [h2, List.filter_filter]
  congr 1
  exact List.filter_congr (fun a _ => Bool.and_comm _ _)

/-- Witness for C8 on a two-row table where only retryingSub qualifies. -/
theorem failed_renewals_exact_witness :
    ([7] : List ℕ) = (([retryingSub, noPolicySub].filter (fun s =>
      s.active && !s.cancelled
        && s.renewal_status = UserSubscription.RETRYING
        && s.for_retry 864000 = some true)).map (fun s => s.id)) :=
  failed_renewals_exact [retryingSub, noPolicySub] 864000 [7] (by
    norm_num [UserSubscriptionManager.failed_renewals, failedRenewalsLoop,
      UserSubscription.for_retry, UserSubscription.transaction_ago,
      retryingSub, noPolicySub, UserSubscription.RETRYING, List.filter])

/-- C9: for every PlanCost whose recurrence_unit is not ONCE and whose
recurrence_period is at least 1, any datetime returned by
next_billing_datetime is strictly later than the input datetime. -/
theorem next_billing_datetime_future (pc : PlanCost) (t s : ℚ)
    (hu : pc.recurrence_unit ≠ ONCE) (hp : 1 ≤ pc.recurrence_period)
    (hs : pc.next_billing_datetime t = some s) : t < s := by
  have hp1 : (1 : ℚ) ≤ (pc.recurrence_period : ℚ) := by exact_mod_cast hp
  unfold PlanCost.next_billing_datetime at hs
  split_ifs at hs <;>
    first
      | exact Option.noConfusion hs
      | (injection hs with hs
         rw [← hs]
         simp only [timedelta_seconds, timedelta_minutes, timedelta_hours,
           timedelta_days, timedelta_weeks]
         nlinarith)

/-- Witness for C9: basePlanCost (month, period 5) advances datetime 0 to
the strictly positive 65743488 / 5 seconds. -/
theorem next_billing_datetime_future_witness :
    basePlanCost.next_billing_datetime 0 = some (65743488 / 5) ∧
    (0 : ℚ) < 65743488 / 5 :=
  have h : basePlanCost.next_billing_datetime 0 = some (65743488 / 5) := by
    simp [PlanCost.next_billing_datetime, basePlanCost, SECOND, MINUTE,
      HOUR, DAY, WEEK, MONTH, YEAR, timedelta_days]
    norm_num
  ⟨h, next_billing_datetime_future basePlanCost 0 (65743488 / 5)
    (by simp [basePlanCost, MONTH, ONCE]) (by norm_num [basePlanCost]) h⟩
